import Mathlib

/-!
# Verification of reload_config (kondanta/reload_config)

A shallow embedding of the core of the library in Lean 4, together with
theorems settling the claims of the specification about it.

The library has two source files:

* `src/recursive.rs` — the mode resolver: an enum `RecursiveMode` with a
  `FromStr` implementation and a `convert` method to the `RecursiveMode`
  type of the `notify` crate.
* `src/lib.rs` — `watch_changes`: parses the mode string, then spawns a
  background thread that loops forever, each iteration creating a fresh
  watcher and channel, receiving one event, classifying it by
  `e.kind.is_modify() || e.kind.is_create() || e.kind.is_remove()`, and on a
  reload-worthy event calling the caller-supplied loader `f`, swapping the
  new value into the shared `Arc<Mutex<C>>` cell on success and retaining
  the old value on failure.

The filesystem-watching primitive (the `notify` crate) is an external
collaborator; its event-kind taxonomy and the `is_modify`, `is_create`,
`is_remove` predicates used by the classifier are embedded below exactly as
the `notify` 5.x public API defines them (each predicate matches precisely
its own top-level variant).
-/

namespace ReloadConfig

/-! ## Mode resolver (`src/recursive.rs`) -/

/-- The enum `RecursiveMode` from `src/recursive.rs`: the list of available
recursion modes offered by the library. -/
inductive RecursiveMode where
  | Recursive
  | NonRecursive
deriving DecidableEq, Repr

/-- The `RecursiveMode` type of the `notify` crate, target of `convert`. -/
inductive NotifyRecursiveMode where
  | Recursive
  | NonRecursive
deriving DecidableEq, Repr

/-- The function `RecursiveMode::from_str` from `src/recursive.rs`: matches
the exact strings `"recursive"` and `"nonrecursive"`; every other string
produces the `anyhow` error `"Cannot parse string"`. -/
def RecursiveMode.from_str (s : String) : Except String RecursiveMode :=
  match s with
  | "recursive" => Except.ok RecursiveMode.Recursive
  | "nonrecursive" => Except.ok RecursiveMode.NonRecursive
  | _ => Except.error "Cannot parse string"

/-- The method `RecursiveMode::convert` from `src/recursive.rs`: maps the
library enum to the corresponding type of the `notify` crate. -/
def RecursiveMode.convert : RecursiveMode → NotifyRecursiveMode
  | RecursiveMode.Recursive => NotifyRecursiveMode.Recursive
  | RecursiveMode.NonRecursive => NotifyRecursiveMode.NonRecursive

/-! ## Event kinds (the taxonomy of the `notify` crate, used by the
classifier) -/

/-- The type `notify::event::AccessMode`. -/
inductive AccessMode where
  | Any | Execute | Read | Write | Other
deriving DecidableEq, Repr

/-- The type `notify::event::AccessKind`. -/
inductive AccessKind where
  | Any
  | Read
  | Open (mode : AccessMode)
  | Close (mode : AccessMode)
  | Other
deriving DecidableEq, Repr

/-- The type `notify::event::DataChange`. -/
inductive DataChange where
  | Any | Size | Content | Other
deriving DecidableEq, Repr

/-- The type `notify::event::MetadataKind`. -/
inductive MetadataKind where
  | Any | AccessTime | WriteTime | Permissions | Ownership | Extended | Other
deriving DecidableEq, Repr

/-- The type `notify::event::RenameMode`. -/
inductive RenameMode where
  | Any | To | From | Both | Other
deriving DecidableEq, Repr

/-- The type `notify::event::ModifyKind`. -/
inductive ModifyKind where
  | Any
  | Data (change : DataChange)
  | Metadata (kind : MetadataKind)
  | Name (mode : RenameMode)
  | Other
deriving DecidableEq, Repr

/-- The type `notify::event::CreateKind`. -/
inductive CreateKind where
  | Any | File | Folder | Other
deriving DecidableEq, Repr

/-- The type `notify::event::RemoveKind`. -/
inductive RemoveKind where
  | Any | File | Folder | Other
deriving DecidableEq, Repr

/-- The type `notify::EventKind`: the change-kind tag carried by every raw
event. -/
inductive EventKind where
  | Any
  | Access (kind : AccessKind)
  | Create (kind : CreateKind)
  | Modify (kind : ModifyKind)
  | Remove (kind : RemoveKind)
  | Other
deriving DecidableEq, Repr

/-- The predicate `EventKind::is_access` from the `notify` crate: true
exactly on the `Access` variant. -/
def EventKind.is_access : EventKind → Bool
  | EventKind.Access _ => true
  | _ => false

/-- The predicate `EventKind::is_create` from the `notify` crate: true
exactly on the `Create` variant. -/
def EventKind.is_create : EventKind → Bool
  | EventKind.Create _ => true
  | _ => false

/-- The predicate `EventKind::is_modify` from the `notify` crate: true
exactly on the `Modify` variant (any modify sub-kind, including
metadata-only). -/
def EventKind.is_modify : EventKind → Bool
  | EventKind.Modify _ => true
  | _ => false

/-- The predicate `EventKind::is_remove` from the `notify` crate: true
exactly on the `Remove` variant. -/
def EventKind.is_remove : EventKind → Bool
  | EventKind.Remove _ => true
  | _ => false

/-- A raw event from the watcher primitive. The core only inspects its
`kind` field (`notify::Event` also carries paths and attributes, which
`watch_changes` never reads). -/
structure Event where
  kind : EventKind
deriving DecidableEq, Repr

/-- The classification test written in `watch_changes` (src/lib.rs lines
91–94): `e.kind.is_modify() || e.kind.is_create() || e.kind.is_remove()`. -/
def reload_worthy (e : Event) : Bool :=
  e.kind.is_modify || e.kind.is_create || e.kind.is_remove

/-! ## Watch session loop (`src/lib.rs`, `watch_changes`) -/

/-- The environment one loop iteration runs in.  Each iteration of the
`loop` in `watch_changes` creates a fresh channel and watcher, watches the
path, receives one value from the channel, and handles it; the possibly
failing interactions with the outside world in one iteration are:

* `watcher_ok` — whether `RecommendedWatcher::new(tx)` succeeds;
* `watch_ok` — whether `watcher.watch(path, mode)` succeeds;
* `recv` — what `rx.recv()` yields: `Except.error` when the channel
  receive itself fails, otherwise the delivered `Result<Event, _>`
  (`Except.ok (Except.error msg)` is a malformed/error event);
* `load` — the value the caller-supplied loader `f` would return if the
  iteration invokes it (the loader is impure in the source, so its result
  is part of the environment of the iteration). -/
structure Iteration (C E : Type) where
  watcher_ok : Bool
  watch_ok : Bool
  recv : Except String (Except String Event)
  load : Except E C

/-- One iteration of the loop body of `watch_changes` (src/lib.rs lines
62–114), acting on the current value `cfg` of the config cell.

Returns `Except.error msg` when the iteration panics (the source calls
`.expect("Cannot create watcher")` on watcher creation and
`.expect("Cannot listen filesystem")` on watching the path), otherwise
`Except.ok (cfg2, invoked)` where `cfg2` is the value held by the cell
after the iteration and `invoked` records whether the loader `f` was
called. -/
def step {C E : Type} (cfg : C) (it : Iteration C E) :
    Except String (C × Bool) :=
  if it.watcher_ok = false then Except.error "Cannot create watcher"
  else if it.watch_ok = false then Except.error "Cannot listen filesystem"
  else
    match it.recv with
    | Except.error _ => Except.ok (cfg, false)
    | Except.ok (Except.error _) => Except.ok (cfg, false)
    | Except.ok (Except.ok e) =>
      if reload_worthy e then
        match it.load with
        | Except.ok new_config => Except.ok (new_config, true)
        | Except.error _ => Except.ok (cfg, true)
      else Except.ok (cfg, false)

/-- Running the watch loop through a finite list of iterations, starting
from the caller-supplied value `init` in the config cell.  `Except.ok c`
means the loop is still running after all the iterations with `c` in the
cell; `Except.error msg` means some iteration panicked with `msg`. -/
def run_session {C E : Type} (init : C) :
    List (Iteration C E) → Except String C
  | [] => Except.ok init
  | it :: rest =>
    match step init it with
    | Except.error msg => Except.error msg
    | Except.ok (cfg, _) => run_session cfg rest

/-- The synchronous part of `watch_changes` (src/lib.rs lines 52–117): it
parses the mode string (propagating a parse failure with the question-mark
operator), spawns the background thread, and returns `Ok(())`.  The `path`
argument is only moved into the spawned thread; the return value never
depends on it. -/
def watch_changes_result (mode : String) (path : String) :
    Except String Unit :=
  match RecursiveMode.from_str mode with
  | Except.error e => Except.error e
  | Except.ok _ =>
    let _ := path
    Except.ok ()

/-! ## Derived and spec-side definitions -/

/-- The value the config cell holds after one non-panicking iteration that
started with `acc` in the cell: the newly loaded value when a well-formed
reload-worthy event arrived and the loader succeeded, the previous value
`acc` in every other case. -/
def cell_after {C E : Type} (acc : C) (it : Iteration C E) : C :=
  match it.recv with
  | Except.ok (Except.ok e) =>
    if reload_worthy e then
      match it.load with
      | Except.ok v => v
      | Except.error _ => acc
    else acc
  | _ => acc

/-- Whether an iteration invokes the loader: its channel receive delivered
a well-formed event that the classifier marks reload-worthy. -/
def invokes_loader {C E : Type} (it : Iteration C E) : Bool :=
  match it.recv with
  | Except.ok (Except.ok e) => reload_worthy e
  | _ => false

/-- Modelled from the words of the spec (§3, claim C5): the value held by
the config cell is the result of the most recent successful loader call,
or the caller-supplied initial value when no successful loader call has
happened yet. -/
def most_recent_successful_load {C E : Type} (init : C)
    (its : List (Iteration C E)) : C :=
  its.foldl cell_after init

/-- Modelled from the words of the spec (§4.2, claim C3): an event is
ReloadWorthy iff its change-kind indicates content modification, entry
creation, or entry removal; pure access or open, metadata touch with no
content change, and unrecognized kinds classify as Ignore. -/
def spec_reload_worthy (e : Event) : Bool :=
  match e.kind with
  | EventKind.Modify (ModifyKind.Data _) => true
  | EventKind.Create _ => true
  | EventKind.Remove _ => true
  | _ => false

/-! ## Concrete iterations used by the witnesses -/

/-- A concrete iteration: healthy watcher, well-formed content-modification
event, loader fails. -/
def iter_load_fail : Iteration Nat String :=
  Iteration.mk true true
    (Except.ok (Except.ok
      (Event.mk (EventKind.Modify (ModifyKind.Data DataChange.Content)))))
    (Except.error "config file malformed")

/-- A concrete iteration: healthy watcher, well-formed file-creation event,
loader succeeds with the value 7. -/
def iter_load_ok : Iteration Nat String :=
  Iteration.mk true true
    (Except.ok (Except.ok (Event.mk (EventKind.Create CreateKind.File))))
    (Except.ok 7)

/-- A concrete iteration: healthy watcher, pure access event (the watched
file was opened and closed for writing without a content change report). -/
def iter_ignore : Iteration Nat String :=
  Iteration.mk true true
    (Except.ok (Except.ok
      (Event.mk (EventKind.Access (AccessKind.Close AccessMode.Write)))))
    (Except.ok 9)

/-- A concrete iteration: healthy watcher, but the channel receive itself
fails. -/
def iter_recv_fail : Iteration Nat String :=
  Iteration.mk true true (Except.error "channel disconnected") (Except.ok 9)

/-- A concrete iteration: healthy watcher, but the channel delivers a
malformed or error event. -/
def iter_bad_event : Iteration Nat String :=
  Iteration.mk true true (Except.ok (Except.error "event error"))
    (Except.ok 9)

/-- A concrete iteration on which watcher creation fails. -/
def iter_bad_watcher : Iteration Nat String :=
  Iteration.mk false true (Except.error "never received") (Except.ok 9)

/-! ## Helper lemmas -/

/-- A non-panicking iteration computes exactly `cell_after` and
`invokes_loader`. -/
theorem step_ok {C E : Type} (cfg : C) (it : Iteration C E)
    (hw : it.watcher_ok = true) (hl : it.watch_ok = true) :
    step cfg it = Except.ok (cell_after cfg it, invokes_loader it) := by
  unfold step cell_after invokes_loader
  rw [hw, hl]
  simp only [Bool.true_eq_false, if_false]
  cases hr : it.recv with
  | error msg => rfl
  | ok r =>
    cases r with
    | error msg => rfl
    | ok e =>
      cases hrw : reload_worthy e with
      | false => simp [hrw]
      | true =>
        simp only [hrw, if_true]
        cases hld : it.load <;> rfl

/-- A successful step implies the watcher was acquired and the result is
`cell_after` with the `invokes_loader` flag. -/
theorem step_ok_inv {C E : Type} (cfg : C) (it : Iteration C E) (p : C × Bool)
    (h : step cfg it = Except.ok p) :
    it.watcher_ok = true ∧ it.watch_ok = true ∧
      p = (cell_after cfg it, invokes_loader it) := by
  cases hw : it.watcher_ok with
  | false =>
    unfold step at h
    rw [hw] at h
    exact Except.noConfusion h
  | true =>
    cases hl : it.watch_ok with
    | false =>
      unfold step at h
      rw [hw, hl] at h
      exact Except.noConfusion h
    | true =>
      rw [step_ok cfg it hw hl] at h
      injection h with h2
      exact ⟨rfl, rfl, h2.symm⟩

/-- A session that is still running after a list of iterations holds the
fold of `cell_after` over them. -/
theorem run_session_ok_eq {C E : Type} :
    ∀ (its : List (Iteration C E)) (init cfg : C),
      run_session init its = Except.ok cfg →
      cfg = most_recent_successful_load init its := by
  intro its
  induction its with
  | nil =>
    intro init cfg h
    unfold run_session at h
    injection h with h2
    exact h2.symm
  | cons it rest ih =>
    intro init cfg h
    unfold run_session at h
    cases hs : step init it with
    | error msg =>
      rw [hs] at h
      exact Except.noConfusion h
    | ok p =>
      obtain ⟨c, b⟩ := p
      rw [hs] at h
      obtain ⟨hw, hl, hp⟩ := step_ok_inv init it (c, b) hs
      have hc : c = cell_after init it := congrArg Prod.fst hp
      have h2 : run_session c rest = Except.ok cfg := h
      rw [hc] at h2
      exact ih (cell_after init it) cfg h2

/-- When every iteration in the list acquires its watcher, the session
never panics and ends holding the fold of `cell_after`. -/
theorem run_session_all_ok {C E : Type} :
    ∀ (its : List (Iteration C E)) (init : C),
      (∀ it ∈ its, it.watcher_ok = true ∧ it.watch_ok = true) →
      run_session init its =
        Except.ok (most_recent_successful_load init its) := by
  intro its
  induction its with
  | nil => intro init h; rfl
  | cons it rest ih =>
    intro init h
    have hit := h it (List.mem_cons_self it rest)
    unfold run_session
    rw [step_ok init it hit.1 hit.2]
    exact ih (cell_after init it)
      (fun x hx => h x (List.mem_cons_of_mem it hx))

/-- An iteration that does not invoke the loader leaves the cell value
unchanged. -/
theorem cell_after_of_not_invoked {C E : Type} (acc : C) (it : Iteration C E)
    (h : invokes_loader it = false) : cell_after acc it = acc := by
  unfold invokes_loader at h
  unfold cell_after
  cases hr : it.recv with
  | error msg => rfl
  | ok r =>
    cases r with
    | error msg => rfl
    | ok e =>
      rw [hr] at h
      change reload_worthy e = false at h
      simp [h]

/-- When no iteration invokes the loader, the fold of `cell_after` keeps
the initial value. -/
theorem most_recent_eq_init_of_no_loader {C E : Type} :
    ∀ (its : List (Iteration C E)) (init : C),
      (∀ it ∈ its, invokes_loader it = false) →
      most_recent_successful_load init its = init := by
  intro its
  induction its with
  | nil => intro init h; rfl
  | cons it rest ih =>
    intro init h
    have hit := h it (List.mem_cons_self it rest)
    have hstep : most_recent_successful_load init (it :: rest) =
        most_recent_successful_load (cell_after init it) rest := rfl
    rw [hstep, cell_after_of_not_invoked init it hit]
    exact ih init (fun x hx => h x (List.mem_cons_of_mem it hx))

/-! ## Claims -/

/-- Claim C1: for every reload-worthy event, if the caller-supplied loader
returns an error, the config cell is not mutated — the iteration leaves the
previous valid value in the cell, so every subsequent read returns it; the
error is only reported, and the watch loop continues with the next
iteration. -/
theorem loader_failure_retains_config {C E : Type} (cfg : C)
    (it : Iteration C E) (e : Event) (err : E)
    (hw : it.watcher_ok = true) (hl : it.watch_ok = true)
    (hr : it.recv = Except.ok (Except.ok e))
    (hrw : reload_worthy e = true)
    (hload : it.load = Except.error err)
    (rest : List (Iteration C E)) :
    step cfg it = Except.ok (cfg, true) ∧
    run_session cfg (it :: rest) = run_session cfg rest := by
  have hs : step cfg it = Except.ok (cfg, true) := by
    rw [step_ok cfg it hw hl]
    unfold cell_after invokes_loader
    rw [hr, hload]
    simp [hrw]
  refine ⟨hs, ?_⟩
  conv_lhs => unfold run_session
  rw [hs]

/-- Witness for C1: concrete loader failure on a content-modification
event, the cell keeps the value 0 and the loop continues. -/
theorem loader_failure_retains_config_witness :
    step (0 : Nat) iter_load_fail = Except.ok (0, true) ∧
    run_session 0 [iter_load_fail] =
      run_session 0 ([] : List (Iteration Nat String)) :=
  loader_failure_retains_config 0 iter_load_fail
    (Event.mk (EventKind.Modify (ModifyKind.Data DataChange.Content)))
    "config file malformed" rfl rfl rfl rfl rfl []

/-- Claim C2: for every reload-worthy event, if the loader returns a new
configuration value successfully, that value is swapped into the config
cell and every subsequent read returns it — the session continues from the
new value. -/
theorem loader_success_swaps_config {C E : Type} (cfg v : C)
    (it : Iteration C E) (e : Event)
    (hw : it.watcher_ok = true) (hl : it.watch_ok = true)
    (hr : it.recv = Except.ok (Except.ok e))
    (hrw : reload_worthy e = true)
    (hload : it.load = Except.ok v)
    (rest : List (Iteration C E)) :
    step cfg it = Except.ok (v, true) ∧
    run_session cfg (it :: rest) = run_session v rest := by
  have hs : step cfg it = Except.ok (v, true) := by
    rw [step_ok cfg it hw hl]
    unfold cell_after invokes_loader
    rw [hr, hload]
    simp [hrw]
  refine ⟨hs, ?_⟩
  conv_lhs => unfold run_session
  rw [hs]

/-- Witness for C2: concrete successful reload on a creation event swaps
the value 7 into the cell. -/
theorem loader_success_swaps_config_witness :
    step (0 : Nat) iter_load_ok = Except.ok (7, true) ∧
    run_session 0 [iter_load_ok] =
      run_session 7 ([] : List (Iteration Nat String)) :=
  loader_success_swaps_config 0 7 iter_load_ok
    (Event.mk (EventKind.Create CreateKind.File)) rfl rfl rfl rfl rfl []

/-- Counterexample to claim C3 as stated: a metadata-only touch (a write
to file metadata, no content change) is classified ReloadWorthy by the
code (`is_modify` is true on every `Modify` sub-kind) although the claim
says metadata-only touches classify as Ignore. -/
theorem classifier_claim_counterexample :
    reload_worthy
        (Event.mk (EventKind.Modify
          (ModifyKind.Metadata MetadataKind.WriteTime))) = true ∧
    spec_reload_worthy
        (Event.mk (EventKind.Modify
          (ModifyKind.Metadata MetadataKind.WriteTime))) = false :=
  ⟨rfl, rfl⟩

/-- Claim C3 (amended): the classifier marks an event ReloadWorthy iff its
top-level change-kind is a Modify, Create, or Remove variant — including
metadata-only and rename Modify sub-kinds — and classifies everything else
(pure access or open, the unrecognized kinds Any and Other) as Ignore. -/
theorem classifier_reload_worthy_kinds (e : Event) :
    reload_worthy e = true ↔
      (∃ m, e.kind = EventKind.Modify m) ∨
      (∃ c, e.kind = EventKind.Create c) ∨
      (∃ r, e.kind = EventKind.Remove r) := by
  obtain ⟨k⟩ := e
  cases k <;>
    simp [reload_worthy, EventKind.is_modify, EventKind.is_create,
      EventKind.is_remove]

/-- Witness for the amended C3 at a concrete creation event. -/
theorem classifier_reload_worthy_kinds_witness :
    reload_worthy (Event.mk (EventKind.Create CreateKind.File)) = true ↔
      (∃ m, (Event.mk (EventKind.Create CreateKind.File)).kind =
        EventKind.Modify m) ∨
      (∃ c, (Event.mk (EventKind.Create CreateKind.File)).kind =
        EventKind.Create c) ∨
      (∃ r, (Event.mk (EventKind.Create CreateKind.File)).kind =
        EventKind.Remove r) :=
  classifier_reload_worthy_kinds (Event.mk (EventKind.Create CreateKind.File))

/-- Claim C4: the mode resolver maps exactly the case-sensitive tokens
"recursive" and "nonrecursive" to the two distinct modes Recursive and
NonRecursive; every other string (including differently cased variants)
yields the parse error, never a default mode. -/
theorem mode_resolver_exact :
    RecursiveMode.from_str "recursive" = Except.ok RecursiveMode.Recursive ∧
    RecursiveMode.from_str "nonrecursive" =
      Except.ok RecursiveMode.NonRecursive ∧
    RecursiveMode.Recursive.convert ≠ RecursiveMode.NonRecursive.convert ∧
    ∀ s : String, s ≠ "recursive" → s ≠ "nonrecursive" →
      RecursiveMode.from_str s = Except.error "Cannot parse string" := by
  refine ⟨rfl, rfl, by decide, ?_⟩
  intro s h1 h2
  unfold RecursiveMode.from_str
  split <;> simp_all

/-- Witness for C4: the differently cased token "Recursive" is rejected
with the parse error. -/
theorem mode_resolver_exact_witness :
    RecursiveMode.from_str "Recursive" =
      Except.error "Cannot parse string" :=
  mode_resolver_exact.2.2.2 "Recursive" (by decide) (by decide)

/-- Claim C5: while the session runs, the config cell holds either the
caller-supplied initial value or the result of the most recent successful
loader call; in particular, when no iteration has invoked the loader yet,
the cell still holds exactly the initial value. -/
theorem config_cell_invariant {C E : Type} (init cfg : C)
    (its : List (Iteration C E))
    (h : run_session init its = Except.ok cfg) :
    cfg = most_recent_successful_load init its ∧
    ((∀ it ∈ its, invokes_loader it = false) → cfg = init) := by
  have h1 := run_session_ok_eq its init cfg h
  refine ⟨h1, fun hno => ?_⟩
  rw [h1, most_recent_eq_init_of_no_loader its init hno]

/-- Witness for C5: a concrete session of one successful reload ends with
the loaded value 7 as the most recent successful load. -/
theorem config_cell_invariant_witness :
    (7 : Nat) = most_recent_successful_load 5 [iter_load_ok] ∧
    ((∀ it ∈ [iter_load_ok], invokes_loader it = false) → (7 : Nat) = 5) :=
  config_cell_invariant 5 7 [iter_load_ok] rfl

/-- Claim C6: an event classified Ignore leaves the config cell unchanged
and the loader is not invoked. -/
theorem ignore_event_no_reload {C E : Type} (cfg : C) (it : Iteration C E)
    (e : Event)
    (hw : it.watcher_ok = true) (hl : it.watch_ok = true)
    (hr : it.recv = Except.ok (Except.ok e))
    (hrw : reload_worthy e = false) :
    step cfg it = Except.ok (cfg, false) := by
  rw [step_ok cfg it hw hl]
  unfold cell_after invokes_loader
  rw [hr]
  simp [hrw]

/-- Witness for C6: a pure open-and-close of the watched file (an access
event) changes nothing and never calls the loader. -/
theorem ignore_event_no_reload_witness :
    step (42 : Nat) iter_ignore = Except.ok (42, false) :=
  ignore_event_no_reload 42 iter_ignore
    (Event.mk (EventKind.Access (AccessKind.Close AccessMode.Write)))
    rfl rfl rfl rfl

/-- Claim C7: when the channel receive fails, or the channel delivers a
malformed or error event, the failure is non-fatal: no loader call and no
cell mutation happens in that iteration, and the loop continues into the
next iteration, which re-establishes a fresh watcher and channel. -/
theorem transient_delivery_error_continues {C E : Type} (cfg : C)
    (it : Iteration C E)
    (hw : it.watcher_ok = true) (hl : it.watch_ok = true)
    (hr : (∃ msg, it.recv = Except.error msg) ∨
          (∃ msg, it.recv = Except.ok (Except.error msg)))
    (rest : List (Iteration C E)) :
    step cfg it = Except.ok (cfg, false) ∧
    run_session cfg (it :: rest) = run_session cfg rest := by
  have hs : step cfg it = Except.ok (cfg, false) := by
    rw [step_ok cfg it hw hl]
    unfold cell_after invokes_loader
    rcases hr with ⟨msg, hm⟩ | ⟨msg, hm⟩ <;> rw [hm]
  refine ⟨hs, ?_⟩
  conv_lhs => unfold run_session
  rw [hs]

/-- Witness for C7: a concrete channel receive failure keeps the value 1
and the loop continues. -/
theorem transient_delivery_error_continues_witness :
    step (1 : Nat) iter_recv_fail = Except.ok (1, false) ∧
    run_session 1 [iter_recv_fail] =
      run_session 1 ([] : List (Iteration Nat String)) :=
  transient_delivery_error_continues 1 iter_recv_fail rfl rfl
    (Or.inl ⟨"channel disconnected", rfl⟩) []

/-- Claim C8: an iteration panics (terminating the session) iff watcher
acquisition fails — creating the watcher or starting to watch the path —
and a session whose iterations all acquire their watcher never terminates
on its own, whatever the loader, event, and channel outcomes are. -/
theorem loop_terminates_only_on_watcher_failure {C E : Type} :
    (∀ (cfg : C) (it : Iteration C E),
      (∃ msg, step cfg it = Except.error msg) ↔
        (it.watcher_ok = false ∨ it.watch_ok = false)) ∧
    (∀ (init : C) (its : List (Iteration C E)),
      (∀ it ∈ its, it.watcher_ok = true ∧ it.watch_ok = true) →
      ∃ cfg, run_session init its = Except.ok cfg) := by
  constructor
  · intro cfg it
    constructor
    · rintro ⟨msg, hmsg⟩
      cases hw : it.watcher_ok with
      | false => exact Or.inl rfl
      | true =>
        cases hl : it.watch_ok with
        | false => exact Or.inr rfl
        | true =>
          rw [step_ok cfg it hw hl] at hmsg
          exact Except.noConfusion hmsg
    · rintro (hw | hl)
      · refine ⟨"Cannot create watcher", ?_⟩
        unfold step
        rw [hw]
        rfl
      · cases hw : it.watcher_ok with
        | false =>
          refine ⟨"Cannot create watcher", ?_⟩
          unfold step
          rw [hw]
          rfl
        | true =>
          refine ⟨"Cannot listen filesystem", ?_⟩
          unfold step
          rw [hw, hl]
          rfl
  · intro init its hall
    exact ⟨most_recent_successful_load init its,
      run_session_all_ok its init hall⟩

/-- Witness for C8: a concrete one-iteration session with a healthy
watcher is still running afterwards. -/
theorem loop_terminates_only_on_watcher_failure_witness :
    ∃ cfg : Nat, run_session 3 [iter_ignore] = Except.ok cfg :=
  (loop_terminates_only_on_watcher_failure (C := Nat) (E := String)).2
    3 [iter_ignore]
    (by
      intro it hmem
      rw [List.mem_singleton] at hmem
      subst hmem
      exact ⟨rfl, rfl⟩)

/-- Counterexample to claim C9 as stated: with a syntactically valid mode
and a nonexistent path, the setup call still returns success — watcher
misconfiguration is never surfaced as a failure result of the call;
instead, a failed watcher acquisition panics inside a loop iteration on
the background thread. -/
theorem setup_result_counterexample :
    watch_changes_result "recursive" "/no/such/path/config.yaml" =
      Except.ok () ∧
    step (0 : Nat) iter_bad_watcher =
      Except.error "Cannot create watcher" :=
  ⟨rfl, rfl⟩

/-- Claim C9 (amended): the setup call reports mode-string parse failure
synchronously as a failure result; once the mode parses, the call returns
success regardless of the path, so watcher-primitive misconfiguration is
not surfaced through the return value (it panics later inside the loop on
the background thread), and ongoing reload failures after startup are
never reported through this call either. -/
theorem setup_result_reports_parse_only {C E : Type} (mode path : String) :
    (∀ err, RecursiveMode.from_str mode = Except.error err →
      watch_changes_result mode path = Except.error err) ∧
    (∀ m, RecursiveMode.from_str mode = Except.ok m →
      watch_changes_result mode path = Except.ok ()) ∧
    (∀ (cfg : C) (it : Iteration C E), it.watcher_ok = false →
      ∃ msg, step cfg it = Except.error msg) := by
  refine ⟨?_, ?_, ?_⟩
  · intro err herr
    unfold watch_changes_result
    rw [herr]
  · intro m hm
    unfold watch_changes_result
    rw [hm]
  · intro cfg it hw
    refine ⟨"Cannot create watcher", ?_⟩
    unfold step
    rw [hw]
    rfl

/-- Witness for the amended C9: a bogus mode string fails the call, and a
valid one succeeds on a nonexistent path. -/
theorem setup_result_reports_parse_only_witness :
    watch_changes_result "bogus" "config.yaml" =
      Except.error "Cannot parse string" ∧
    watch_changes_result "recursive" "/missing/config.yaml" =
      Except.ok () :=
  ⟨(setup_result_reports_parse_only (C := Nat) (E := String)
      "bogus" "config.yaml").1 "Cannot parse string" rfl,
   (setup_result_reports_parse_only (C := Nat) (E := String)
      "recursive" "/missing/config.yaml").2.1 RecursiveMode.Recursive rfl⟩

/-- Claim C10: whenever the mode string parses, `watch_changes` returns
success for every path whatsoever — the path is never validated before the
call returns — and a watcher-creation or watch failure manifests only
later, as a panic inside a loop iteration on the spawned thread, never as
an error in the return value. -/
theorem watch_changes_path_never_validated {C E : Type}
    (mode : String) (m : RecursiveMode)
    (h : RecursiveMode.from_str mode = Except.ok m) :
    (∀ path, watch_changes_result mode path = Except.ok ()) ∧
    (∀ (cfg : C) (it : Iteration C E),
      (it.watcher_ok = false →
        step cfg it = Except.error "Cannot create watcher") ∧
      (it.watcher_ok = true → it.watch_ok = false →
        step cfg it = Except.error "Cannot listen filesystem")) := by
  constructor
  · intro path
    unfold watch_changes_result
    rw [h]
  · intro cfg it
    constructor
    · intro hw
      unfold step
      rw [hw]
      rfl
    · intro hw hl
      unfold step
      rw [hw, hl]
      rfl

/-- Witness for C10: with the valid mode "nonrecursive", the call succeeds
on a path that does not exist. -/
theorem watch_changes_path_never_validated_witness :
    watch_changes_result "nonrecursive" "/does/not/exist" = Except.ok () :=
  (watch_changes_path_never_validated (C := Nat) (E := String)
    "nonrecursive" RecursiveMode.NonRecursive rfl).1 "/does/not/exist"

end ReloadConfig
